import Mathlib

/-!
# Verification of the ParseStudio adapter/normalization layer

This file gives a shallow embedding, in Lean 4, of the original logic of the
ParseStudio repository: the markdown-table normalization performed by the
LLM-based backend adapters, the modality validation shared by all adapters,
the per-adapter result-export logic, the per-document error handling of each
adapter, and the backend dispatch of `parsestudio/parse.py`.  External
engines (the Anthropic/OpenAI APIs, PyMuPDF, docling, LlamaParse, pandas,
PIL) are modelled at the boundary: each external call is represented by the
value it returns, or by an `Except.error` when the call raises.

Python string primitives used by the source (`str.split`, `str.splitlines`,
`str.strip`) are re-implemented over `List Char` with structural recursion so
that every definition is executable and every concrete instance can be
checked by `decide` or `rfl`.
-/

set_option autoImplicit false

/-! ## Python string primitives -/

/-- Split a character list at every occurrence of the separator character.
Mirrors Python `str.split(sep)` for a one-character separator: the result
always has at least one (possibly empty) piece, and empty pieces between,
before or after separators are kept. -/
def splitOnCharList (sep : Char) : List Char → List (List Char)
  | [] => [[]]
  | c :: cs =>
    let rest := splitOnCharList sep cs
    if c == sep then [] :: rest
    else
      match rest with
      | [] => [[c]]
      | piece :: pieces => (c :: piece) :: pieces

/-- Drop matching characters from both ends of a character list. -/
def trimEndsList (keepOut : Char → Bool) (cs : List Char) : List Char :=
  ((cs.dropWhile keepOut).reverse.dropWhile keepOut).reverse

/-- ASCII whitespace as recognised by Python `str.strip()` on the inputs this
code handles. -/
def isPySpace (c : Char) : Bool :=
  c == ' ' || c == '\t' || c == '\n' || c == '\r' || c == '\x0b' || c == '\x0c'

/-- Python `s.split(sep)` for a one-character separator, on Lean strings. -/
def pySplit (sep : Char) (s : String) : List String :=
  (splitOnCharList sep s.toList).map String.mk

/-- Python `s.strip()`: remove whitespace from both ends. -/
def pyTrim (s : String) : String :=
  String.mk (trimEndsList isPySpace s.toList)

/-- Python `s.strip("|")`: remove every leading and trailing pipe. -/
def pyStripPipes (s : String) : String :=
  String.mk (trimEndsList (fun c => c == '|') s.toList)

/-- Python `s.splitlines()` for texts whose line ends are `\n`: split at every
newline, with no trailing empty line when the text ends in a newline, and no
lines at all for the empty text. -/
def pySplitLines (s : String) : List String :=
  match s.toList with
  | [] => []
  | cs =>
    let pieces := splitOnCharList '\n' cs
    let pieces := if cs.getLast? == some '\n' then pieces.dropLast else pieces
    pieces.map String.mk

/-- Python `s.lower()`. -/
def pyLower (s : String) : String :=
  String.mk (s.toList.map Char.toLower)

/-- Python `repr` of a list of strings, as it appears inside the error
messages of the source (for example `['text', 'tables', 'images']`). -/
def pyListRepr (xs : List String) : String :=
  "[" ++ String.intercalate ", " (xs.map (fun s => "\x27" ++ s ++ "\x27")) ++ "]"

/-! ## Common output model

Modelled from the spec: the adapters import `ParserOutput`, `TableElement`,
`ImageElement`, `TextElement` and `Metadata` from
`parsestudio/parsers/schemas.py`, a module whose file is not among the
provided sources.  Section 3 of the spec describes these shapes: `Metadata`
holds a page number (default 1) and a four-number bounding box (default
`[0,0,0,0]`); `TextElement` holds a string; `TableElement` holds the markdown
text, a tabular structure of named columns and string-cell rows (absent when
the conversion failed and the adapter stored no dataframe), and a `Metadata`;
`ImageElement` holds a decoded bitmap (opaque here) and a `Metadata`;
`ParserOutput` aggregates one text element and the table/image sequences. -/

/-- Page provenance attached to one table or image. -/
structure Metadata where
  page_number : Nat
  bbox : List Int
  deriving DecidableEq, Repr

/-- Modelled from the spec: the default bounding box used when a `Metadata`
is built without positional provenance. -/
def defaultBbox : List Int := [0, 0, 0, 0]

/-- All extracted textual content of one document. -/
structure TextElement where
  text : String
  deriving DecidableEq, Repr

/-- Boundary model of a `pandas.DataFrame`: the list of column names and the
list of rows it was built from. -/
structure PandasDataFrame where
  columns : List String
  data : List (List String)
  deriving DecidableEq, Repr

/-- Boundary model of the external constructor
`pandas.DataFrame(data, columns=columns)` for list-of-lists data (and of
`pandas.DataFrame(columns=columns)` when the data list is empty): pandas
infers the content width as the maximum row length and raises `ValueError`
when the data is non-empty and that width differs from the number of
columns.  On success the parsed rows are stored as-is; pandas would pad a
row shorter than the inferred width with NaN cells, a difference no theorem
below reaches (their tables are rectangular). -/
def mkDataFrame (data : List (List String)) (columns : List String) :
    Except String PandasDataFrame :=
  if data.isEmpty then .ok { columns := columns, data := data }
  else if (data.map List.length).foldl max 0 = columns.length then
    .ok { columns := columns, data := data }
  else .error "columns passed, passed data had different number of columns"

/-- Boundary model of a decoded PIL bitmap: opaque, identified by a tag. -/
structure PILImage where
  imageId : Nat
  deriving DecidableEq, Repr

/-- One extracted table: markdown text, converted dataframe (`none` when the
adapter stored a failed conversion, as the Llama adapter does), provenance. -/
structure TableElement where
  markdown : String
  dataframe : Option PandasDataFrame
  metadata : Metadata
  deriving DecidableEq, Repr

/-- One extracted image with its provenance. -/
structure ImageElement where
  image : PILImage
  metadata : Metadata
  deriving DecidableEq, Repr

/-- The uniform per-document output of every adapter. -/
structure ParserOutput where
  text : TextElement
  tables : List TableElement
  images : List ImageElement
  deriving DecidableEq, Repr

/-! ## Raw backend results

The LLM-based adapters receive, per document, a dictionary
`{"text_content": str, "tables": [{"markdown": str, "page_number"?: int,
"bbox"?: [num, num, num, num]}, ...]}`.  `RawTable` models one entry of the
`tables` list (`Option` fields model absent dictionary keys, read with
`dict.get(key, default)` in the source), and `RawResult` models the whole
dictionary. -/

/-- One raw table dictionary of a backend result. -/
structure RawTable where
  markdown : String
  page_number : Option Nat
  bbox : Option (List Int)
  deriving DecidableEq, Repr

/-- One raw per-document backend result. -/
structure RawResult where
  text_content : String
  tables : List RawTable
  deriving DecidableEq, Repr

/-! ## OpenAI vision adapter (`parsers/openai_vision_parser.py`) -/

namespace OpenAIVisionPDFParser

/-- The repeated cell computation of `_extract_tables`:
`[c.strip() for c in line.strip("|").split("|")]`. -/
def stripSplitTrim (line : String) : List String :=
  (pySplit '|' (pyStripPipes line)).map pyTrim

/-- Embedding of `OpenAIVisionPDFParser._extract_tables`: for each raw table,
keep the non-blank lines of its markdown; skip the table when fewer than two
remain; take the header cells from line 0; keep, from line 2 on, each row with
at least one non-empty trimmed cell; build the dataframe and attach the
provenance read from the raw table with defaults `1` and `[0, 0, 0, 0]`.
When the `pandas.DataFrame` constructor raises (header/row width mismatch),
the surrounding `try/except` prints a warning and skips the table. -/
def extract_tables (tables : List RawTable) : List TableElement :=
  tables.filterMap fun tbl =>
    let lines := (pySplitLines tbl.markdown).filter (fun ln => pyTrim ln != "")
    if lines.length < 2 then none
    else
      let hdr := stripSplitTrim (lines.getD 0 "")
      let rows := (lines.drop 2).filterMap fun ln =>
        if !(stripSplitTrim ln).isEmpty && (stripSplitTrim ln).any (fun c => c != "")
        then some (stripSplitTrim ln) else none
      match mkDataFrame rows hdr with
      | .ok df =>
        some { markdown := tbl.markdown
               dataframe := some df
               metadata := { page_number := tbl.page_number.getD 1
                             bbox := tbl.bbox.getD defaultBbox } }
      | .error _ => none

/-- Embedding of `_analyze_page` at the boundary: the argument is the outcome
of the retried chat-completion call (`Except.error` when all retries failed).
On success the page dictionary gets `page_number` set on every table that did
not carry one (`setdefault`); on exhausted retries the fallback
`{"text_content": "", "tables": []}` is produced. -/
def analyze_page (callResult : Except String RawResult) (page_number : Nat) : RawResult :=
  match callResult with
  | .ok data =>
      { data with tables := data.tables.map fun t =>
          { t with page_number := some (t.page_number.getD page_number) } }
  | .error _ => { text_content := "", tables := [] }

/-- Page aggregation of `load_documents`: text pieces are concatenated behind
`--- Page i ---` headers and the page tables are appended in order. -/
def combine_pages (pages : List (Except String RawResult)) : RawResult :=
  pages.enum.foldl
    (fun combined ip =>
      let page := analyze_page ip.2 (ip.1 + 1)
      { text_content := combined.text_content ++ "\n--- Page " ++ toString (ip.1 + 1)
          ++ " ---\n" ++ page.text_content
        tables := combined.tables ++ page.tables })
    { text_content := "", tables := [] }

/-- Embedding of `load_documents`: one entry per path; `Except.ok` carries the
page-call outcomes of a convertible document, `Except.error` a raised
`convert_from_path`/processing exception, which the source catches and turns
into the empty result. -/
def load_documents (docs : List (Except String (List (Except String RawResult)))) :
    List RawResult :=
  docs.map fun doc =>
    match doc with
    | .ok pageResults => combine_pages pageResults
    | .error _ => { text_content := "", tables := [] }

/-- The fixed modality set of `_validate_modalities`. -/
def valid_modalities : List String := ["text", "tables", "images"]

/-- Embedding of `_validate_modalities`: collect every requested modality
outside the valid set and fail when any exists. -/
def validate_modalities (modalities : List String) : Except String Unit :=
  let invalid := modalities.filter (fun m => !valid_modalities.contains m)
  if invalid.isEmpty then .ok ()
  else .error ("Invalid modalities: " ++ pyListRepr invalid
    ++ ". Valid: " ++ pyListRepr ["images", "tables", "text"])

/-- Embedding of `__export_result`: text only when requested, tables only when
requested, never any image. -/
def export_result (parsed : RawResult) (modalities : List String) : ParserOutput :=
  { text := if modalities.contains "text" then { text := parsed.text_content }
            else { text := "" }
    tables := if modalities.contains "tables" then extract_tables parsed.tables else []
    images := [] }

/-- Embedding of `parse`, instrumented with the number of per-document backend
conversations started: validation runs first, and the generator
`load_documents` is only consumed afterwards, so a validation failure performs
zero backend calls. -/
def parse (docs : List (Except String (List (Except String RawResult))))
    (modalities : List String) : Except String (List ParserOutput) × Nat :=
  match validate_modalities modalities with
  | .error e => (.error e, 0)
  | .ok _ => (.ok ((load_documents docs).map (fun r => export_result r modalities)),
              docs.length)

end OpenAIVisionPDFParser

/-! ## OpenAI file-search adapter (`parsers/openai_file_search_parser.py`)

The class `OpenAIAssistantPDFParser` duplicates the vision adapter's
normalization and validation code; the duplicates are embedded separately to
mirror the source files. -/

namespace OpenAIAssistantPDFParser

/-- The repeated cell computation of `_extract_tables`, as in the vision
adapter. -/
def stripSplitTrim (line : String) : List String :=
  (pySplit '|' (pyStripPipes line)).map pyTrim

/-- Embedding of `OpenAIAssistantPDFParser._extract_tables` (same algorithm as
the vision adapter's, including the `try/except` that skips a table whose
`pandas.DataFrame` construction fails). -/
def extract_tables (tables : List RawTable) : List TableElement :=
  tables.filterMap fun tbl =>
    let lines := (pySplitLines tbl.markdown).filter (fun ln => pyTrim ln != "")
    if lines.length < 2 then none
    else
      let hdr := stripSplitTrim (lines.getD 0 "")
      let rows := (lines.drop 2).filterMap fun ln =>
        if !(stripSplitTrim ln).isEmpty && (stripSplitTrim ln).any (fun c => c != "")
        then some (stripSplitTrim ln) else none
      match mkDataFrame rows hdr with
      | .ok df =>
        some { markdown := tbl.markdown
               dataframe := some df
               metadata := { page_number := tbl.page_number.getD 1
                             bbox := tbl.bbox.getD defaultBbox } }
      | .error _ => none

/-- Embedding of `load_documents`: per path, `Except.ok` carries the result of
the assistant-run analysis, `Except.error` a raised upload/analysis exception,
which the source catches and turns into the empty result (resource cleanup
always runs and never alters the yielded value). -/
def load_documents (docs : List (Except String RawResult)) : List RawResult :=
  docs.map fun doc =>
    match doc with
    | .ok result => result
    | .error _ => { text_content := "", tables := [] }

/-- The fixed modality set of `_validate_modalities`. -/
def valid_modalities : List String := ["text", "tables", "images"]

/-- Embedding of `_validate_modalities` (same list style as the vision
adapter). -/
def validate_modalities (modalities : List String) : Except String Unit :=
  let invalid := modalities.filter (fun m => !valid_modalities.contains m)
  if invalid.isEmpty then .ok ()
  else .error ("Invalid modalities: " ++ pyListRepr invalid
    ++ ". Valid: " ++ pyListRepr ["images", "tables", "text"])

/-- Embedding of `__export_result`: the Assistant API never extracts
images. -/
def export_result (parsed : RawResult) (modalities : List String) : ParserOutput :=
  { text := if modalities.contains "text" then { text := parsed.text_content }
            else { text := "" }
    tables := if modalities.contains "tables" then extract_tables parsed.tables else []
    images := [] }

/-- Embedding of `parse` (after the `None` default is filled in), instrumented
with the number of per-document backend uploads started. -/
def parse (docs : List (Except String RawResult)) (modalities : List String) :
    Except String (List ParserOutput) × Nat :=
  match validate_modalities modalities with
  | .error e => (.error e, 0)
  | .ok _ => (.ok ((load_documents docs).map (fun r => export_result r modalities)),
              docs.length)

end OpenAIAssistantPDFParser

/-! ## Anthropic adapter (`parsers/anthropic_parser.py`) -/

namespace AnthropicPDFParser

/-- Boundary model of the Anthropic API client held by the adapter. -/
structure AnthropicClient where
  api_key : String
  deriving DecidableEq, Repr

/-- Embedding of `AnthropicPDFParser.__init__` as a function of the
`ANTHROPIC_API_KEY` environment variable (`none` when unset): `if not
api_key` rejects both an unset and an empty value with a `ValueError` before
the client is built; no network request is made during construction. -/
def init (env_api_key : Option String) : Except String AnthropicClient :=
  match env_api_key with
  | none => .error "ANTHROPIC_API_KEY environment variable is required"
  | some api_key =>
    if api_key == "" then .error "ANTHROPIC_API_KEY environment variable is required"
    else .ok { api_key := api_key }

/-- Embedding of `AnthropicPDFParser._extract_tables`.  Unlike the OpenAI
adapters, the markdown is split at every newline without discarding blank
lines and without a minimum-line check; the header keeps the non-empty raw
pieces of line 0; a data row is the slice `[1:-1]` of the pipe-split line,
kept whenever that slice is a non-empty list.  When the `pandas.DataFrame`
constructor raises (its `ValueError` is among the caught exception types),
the table is skipped with a warning and the loop continues. -/
def extract_tables (tables : List RawTable) : List TableElement :=
  tables.filterMap fun table =>
    let lines := pySplit '\n' table.markdown
    let headers := ((pySplit '|' (lines.getD 0 "")).filter (fun x => x != "")).map pyTrim
    let rows := (lines.drop 2).filterMap fun line =>
      let row := (((pySplit '|' line).drop 1).dropLast).map pyTrim
      if !row.isEmpty then some row else none
    match mkDataFrame rows headers with
    | .ok table_df =>
      some { markdown := table.markdown
             dataframe := some table_df
             metadata := { page_number := table.page_number.getD 1
                           bbox := table.bbox.getD defaultBbox } }
    | .error _ => none

/-- Embedding of `load_documents`: one entry per path; `Except.ok` carries the
text of the model response for a document whose file read and API call
succeeded, `Except.error` a raised exception.  Both branches of the source
store an empty `tables` list — tables are never extracted from the
response. -/
def load_documents (docs : List (Except String String)) : List RawResult :=
  docs.map fun doc =>
    match doc with
    | .ok content => { text_content := content, tables := [] }
    | .error _ => { text_content := "", tables := [] }

/-- The fixed modality set of `_validate_modalities`. -/
def valid_modalities : List String := ["text", "tables", "images"]

/-- Embedding of `_validate_modalities`: the loop raises at the first
requested modality outside the valid set, naming it. -/
def validate_modalities : List String → Except String Unit
  | [] => .ok ()
  | modality :: rest =>
    if valid_modalities.contains modality then validate_modalities rest
    else .error ("Invalid modality: " ++ modality ++ ". Valid options: "
      ++ pyListRepr valid_modalities)

/-- Embedding of `__export_result`: images are never supported. -/
def export_result (parsed_data : RawResult) (modalities : List String) : ParserOutput :=
  { text := if modalities.contains "text" then { text := parsed_data.text_content }
            else { text := "" }
    tables := if modalities.contains "tables" then extract_tables parsed_data.tables
              else []
    images := [] }

/-- Embedding of `parse`, instrumented with the number of per-document API
calls started: validation runs before the document generator is consumed. -/
def parse (docs : List (Except String String)) (modalities : List String) :
    Except String (List ParserOutput) × Nat :=
  match validate_modalities modalities with
  | .error e => (.error e, 0)
  | .ok _ => (.ok ((load_documents docs).map (fun r => export_result r modalities)),
              docs.length)

end AnthropicPDFParser

/-! ## PyMuPDF adapter (`parsers/pymupdf_parser.py`) -/

namespace PyMuPDFParser

/-- Boundary model of one table found by `page.find_tables()`, with its two
external conversions. -/
structure FitzTable where
  to_markdown : String
  to_pandas : PandasDataFrame
  deriving DecidableEq, Repr

/-- Boundary model of one loaded PyMuPDF page: its zero-based index and the
outcomes of the external extraction calls used by the adapter. -/
structure FitzPage where
  number : Nat
  get_text : String
  find_tables : List FitzTable
  get_images : List PILImage
  deriving DecidableEq, Repr

/-- Embedding of `_extract_text`. -/
def extract_text (page : FitzPage) : TextElement :=
  { text := page.get_text }

/-- Embedding of `_extract_tables`: every found table is kept with the
engine's own markdown and dataframe conversions; `Metadata` is built with
`page_number = page.number + 1` and no bounding box, so the spec-modelled
default `[0, 0, 0, 0]` applies. -/
def extract_tables (page : FitzPage) : List TableElement :=
  page.find_tables.map fun tab =>
    { markdown := tab.to_markdown
      dataframe := some tab.to_pandas
      metadata := { page_number := page.number + 1, bbox := defaultBbox } }

/-- Embedding of `_extract_images`. -/
def extract_images (page : FitzPage) : List ImageElement :=
  page.get_images.map fun img =>
    { image := img, metadata := { page_number := page.number + 1, bbox := defaultBbox } }

/-- The fixed modality set of `_validate_modalities`. -/
def valid_modalities : List String := ["text", "tables", "images"]

/-- Embedding of `_validate_modalities` (first-offender loop). -/
def validate_modalities : List String → Except String Unit
  | [] => .ok ()
  | modality :: rest =>
    if valid_modalities.contains modality then validate_modalities rest
    else .error ("Invalid modality: " ++ modality ++ ". The valid modalities are: "
      ++ pyListRepr valid_modalities)

/-- Embedding of `__export_result`: one pass over the pages, appending text
(with a newline), tables and images for each requested modality. -/
def export_result (pages : List FitzPage) (modalities : List String) : ParserOutput :=
  pages.foldl
    (fun output page =>
      { text := if modalities.contains "text"
                then { text := output.text.text ++ (extract_text page).text ++ "\n" }
                else output.text
        tables := if modalities.contains "tables"
                  then output.tables ++ extract_tables page else output.tables
        images := if modalities.contains "images"
                  then output.images ++ extract_images page else output.images })
    { text := { text := "" }, tables := [], images := [] }

/-- Sequential consumption of the `load_documents` generator by `parse`: the
generator has no exception handler, so the first failing `fitz.open` raises
out of the whole call; each processed document counts one backend open. -/
def run_documents : List (Except String (List FitzPage)) → List String →
    Except String (List ParserOutput) × Nat
  | [], _ => (.ok [], 0)
  | .error e :: _, _ => (.error e, 1)
  | .ok pages :: rest, modalities =>
    match run_documents rest modalities with
    | (.ok outputs, n) => (.ok (export_result pages modalities :: outputs), n + 1)
    | (.error e, n) => (.error e, n + 1)

/-- Embedding of `parse`, instrumented with the number of documents opened. -/
def parse (docs : List (Except String (List FitzPage))) (modalities : List String) :
    Except String (List ParserOutput) × Nat :=
  match validate_modalities modalities with
  | .error e => (.error e, 0)
  | .ok _ => run_documents docs modalities

end PyMuPDFParser

/-! ## Docling adapter (`parsers/docling_parser.py`) -/

namespace DoclingPDFParser

/-- Boundary model of one `TableItem` of a converted docling document, with
its external conversions and the provenance of `item.prov[0]`. -/
structure DoclingTableItem where
  export_to_markdown : String
  export_to_dataframe : PandasDataFrame
  page_no : Nat
  bbox : List Int
  deriving DecidableEq, Repr

/-- Boundary model of one `PictureItem` (`get_image` can return `None`). -/
structure DoclingPictureItem where
  get_image : Option PILImage
  page_no : Nat
  bbox : List Int
  deriving DecidableEq, Repr

/-- One item yielded by `document.iterate_items()`. -/
inductive DoclingItem where
  | tableItem (item : DoclingTableItem)
  | pictureItem (item : DoclingPictureItem)
  | otherItem
  deriving DecidableEq, Repr

/-- Boundary model of a successfully converted `DoclingDocument`. -/
structure DoclingDocument where
  export_to_markdown : String
  items : List DoclingItem
  deriving DecidableEq, Repr

/-- Embedding of `_extract_text` (the markdown-options pass-through does not
change the shape of the result). -/
def extract_text (document : DoclingDocument) : TextElement :=
  { text := document.export_to_markdown }

/-- Embedding of `_extract_tables`: one element per table item, with the
item's own provenance. -/
def extract_tables (item : DoclingTableItem) : List TableElement :=
  [{ markdown := item.export_to_markdown
     dataframe := some item.export_to_dataframe
     metadata := { page_number := item.page_no, bbox := item.bbox } }]

/-- Embedding of `_extract_images`: skipped when `get_image` returns
`None`. -/
def extract_images (item : DoclingPictureItem) : List ImageElement :=
  match item.get_image with
  | none => []
  | some image =>
    [{ image := image, metadata := { page_number := item.page_no, bbox := item.bbox } }]

/-- The fixed modality set of `_validate_modalities`. -/
def valid_modalities : List String := ["text", "tables", "images"]

/-- Embedding of `_validate_modalities` (first-offender loop). -/
def validate_modalities : List String → Except String Unit
  | [] => .ok ()
  | modality :: rest =>
    if valid_modalities.contains modality then validate_modalities rest
    else .error ("Invalid modality: " ++ modality ++ ". The valid modalities are: "
      ++ pyListRepr valid_modalities)

/-- Embedding of `__export_result`: text when requested, then one pass over
`iterate_items` appending tables and images for the requested modalities.
(The source skips the item loop entirely when neither is requested, which
yields the same empty lists as the per-item guards modelled here.) -/
def export_result (document : DoclingDocument) (modalities : List String) : ParserOutput :=
  let text := if modalities.contains "text" then extract_text document else { text := "" }
  let pair := document.items.foldl
    (fun (acc : List TableElement × List ImageElement) item =>
      match item with
      | .tableItem t =>
        (if modalities.contains "tables" then acc.1 ++ extract_tables t else acc.1, acc.2)
      | .pictureItem p =>
        (acc.1, if modalities.contains "images" then acc.2 ++ extract_images p else acc.2)
      | .otherItem => acc)
    ([], [])
  { text := text, tables := pair.1, images := pair.2 }

/-- Sequential consumption of the conversion results by `parse`: a result with
non-success status makes `parse` raise
`ValueError("Failed to parse the document: ...")`, aborting the call; each
converted document counts one engine conversion. -/
def run_documents : List (Except String DoclingDocument) → List String →
    Except String (List ParserOutput) × Nat
  | [], _ => (.ok [], 0)
  | .error errors :: _, _ => (.error ("Failed to parse the document: " ++ errors), 1)
  | .ok document :: rest, modalities =>
    match run_documents rest modalities with
    | (.ok outputs, n) => (.ok (export_result document modalities :: outputs), n + 1)
    | (.error e, n) => (.error e, n + 1)

/-- Embedding of `parse` (with the default keyword arguments), instrumented
with the number of documents converted.  Each list entry is the conversion
outcome of one path: `Except.error` models a `ConversionResult` whose status
is not `SUCCESS`, carrying its `errors` rendering. -/
def parse (docs : List (Except String DoclingDocument)) (modalities : List String) :
    Except String (List ParserOutput) × Nat :=
  match validate_modalities modalities with
  | .error e => (.error e, 0)
  | .ok _ => run_documents docs modalities

end DoclingPDFParser

/-! ## Llama adapter (`parsers/llama_parser.py`) -/

namespace LlamaPDFParser

/-- Boundary model of the LlamaParse converter handle. -/
structure LlamaConverter where
  api_key : Option String
  deriving DecidableEq, Repr

/-- Embedding of `LlamaPDFParser.__init__`: the external `LlamaParse`
constructor is a parameter (applied to the `LLAMA_PARSE_KEY` environment
value); when it raises, the adapter re-raises a `ValueError` naming the
failure, synchronously and without retry. -/
def init (llama_parse_ctor : Option String → Except String LlamaConverter)
    (env_llama_parse_key : Option String) : Except String LlamaConverter :=
  match llama_parse_ctor env_llama_parse_key with
  | .ok converter => .ok converter
  | .error e =>
    .error ("An error occurred while initializing the LlamaParse converter: " ++ e)

end LlamaPDFParser

deriving instance DecidableEq for Except

namespace LlamaPDFParser

/-- One item of a result page (`item["type"]`, `item["md"]`, and the outcome
of the external `pd.read_csv(item["csv"])` conversion). -/
structure LlamaItem where
  itemType : String
  md : String
  csv : Except String PandasDataFrame
  deriving DecidableEq, Repr

/-- One page of a LlamaParse JSON result, with the images the external
`get_images` call downloads for it. -/
structure LlamaPage where
  page : Nat
  text : String
  items : List LlamaItem
  images : List PILImage
  deriving DecidableEq, Repr

/-- One per-document JSON result of `get_json_result`. -/
structure LlamaJsonResult where
  job_id : String
  pages : List LlamaPage
  deriving DecidableEq, Repr

/-- Embedding of `_extract_text`. -/
def extract_text (page : LlamaPage) : TextElement :=
  { text := page.text }

/-- Embedding of `_extract_tables`: items of type `"table"` are kept; a failed
CSV conversion stores `None` as the dataframe (the table is still emitted);
`Metadata` carries the page number and no bounding box, so the spec-modelled
default applies. -/
def extract_tables (page : LlamaPage) : List TableElement :=
  (page.items.filter (fun item => item.itemType == "table")).map fun item =>
    let table_df := match item.csv with
      | .ok df => some df
      | .error _ => none
    { markdown := item.md
      dataframe := table_df
      metadata := { page_number := page.page, bbox := defaultBbox } }

/-- Embedding of `_extract_images`: one element per downloaded image of the
page. -/
def extract_images (page : LlamaPage) : List ImageElement :=
  page.images.map fun img =>
    { image := img, metadata := { page_number := page.page, bbox := defaultBbox } }

/-- The fixed modality set of `_validate_modalities`. -/
def valid_modalities : List String := ["text", "tables", "images"]

/-- Embedding of `_validate_modalities` (first-offender loop). -/
def validate_modalities : List String → Except String Unit
  | [] => .ok ()
  | modality :: rest =>
    if valid_modalities.contains modality then validate_modalities rest
    else .error ("Invalid modality: " ++ modality ++ ". The valid modalities are: "
      ++ pyListRepr valid_modalities)

/-- Embedding of `__export_result`: one pass over the result pages, appending
text (with a newline), tables and images for each requested modality. -/
def export_result (json_result : LlamaJsonResult) (modalities : List String) :
    ParserOutput :=
  json_result.pages.foldl
    (fun output page =>
      { text := if modalities.contains "text"
                then { text := output.text.text ++ (extract_text page).text ++ "\n" }
                else output.text
        tables := if modalities.contains "tables"
                  then output.tables ++ extract_tables page else output.tables
        images := if modalities.contains "images"
                  then output.images ++ extract_images page else output.images })
    { text := { text := "" }, tables := [], images := [] }

/-- Embedding of `parse`, instrumented with the number of `get_json_result`
batch calls made: the whole batch is one external call, performed only after
validation, and an exception from it propagates uncaught. -/
def parse (batch : Except String (List LlamaJsonResult)) (modalities : List String) :
    Except String (List ParserOutput) × Nat :=
  match validate_modalities modalities with
  | .error e => (.error e, 0)
  | .ok _ =>
    match batch with
    | .error e => (.error e, 1)
    | .ok docs => (.ok (docs.map (fun r => export_result r modalities)), 1)

end LlamaPDFParser

/-! ## Dispatcher (`parsestudio/parse.py`) -/

namespace PDFParser

/-- The five adapter classes selectable by name. -/
inductive ParserBackendTag where
  | docling
  | llama
  | pymupdf
  | anthropic
  | openai
  deriving DecidableEq, Repr

/-- Embedding of `PDFParser.PARSER_MAP` (an insertion-ordered dict). -/
def PARSER_MAP : List (String × ParserBackendTag) :=
  [("docling", .docling), ("llama", .llama), ("pymupdf", .pymupdf),
   ("anthropic", .anthropic), ("openai", .openai)]

/-- The error message raised by `PDFParser.__init__` for an unknown backend
name: it quotes the requested name and renders the list of valid names. -/
def invalid_parser_message (parser : String) : String :=
  "Invalid parser: \x27" ++ parser ++ "\x27. Valid options are: "
    ++ pyListRepr (PARSER_MAP.map Prod.fst)

/-- Embedding of `PDFParser.__init__`: lower-case the requested name, look it
up in `PARSER_MAP`, and raise a `ValueError` naming the valid set when the
lookup fails; only on success is the adapter class instantiated. -/
def init (parser : String) : Except String ParserBackendTag :=
  let parser_name := pyLower parser
  match PARSER_MAP.lookup parser_name with
  | some parser_class => .ok parser_class
  | none => .error (invalid_parser_message parser)

end PDFParser

/-! ## Helper lemmas -/

/-- Splitting never produces an empty piece list. -/
theorem splitOnCharList_ne_nil (sep : Char) (cs : List Char) :
    splitOnCharList sep cs ≠ [] := by
  cases cs with
  | nil => simp [splitOnCharList]
  | cons c cs =>
    simp only [splitOnCharList]
    by_cases h : c == sep
    · simp [h]
    · simp only [h]
      cases splitOnCharList sep cs <;> simp

/-- Python split never returns an empty list of pieces. -/
theorem pySplit_ne_nil (sep : Char) (s : String) : pySplit sep s ≠ [] := by
  simpa [pySplit] using splitOnCharList_ne_nil sep s.toList

/-- The cell list of a parsed row in the vision adapter is never the empty
list, so the `cells and ...` guard reduces to the non-empty-cell test. -/
theorem vision_stripSplitTrim_ne_nil (line : String) :
    (OpenAIVisionPDFParser.stripSplitTrim line).isEmpty = false := by
  rw [List.isEmpty_eq_false]
  simpa [OpenAIVisionPDFParser.stripSplitTrim] using
    pySplit_ne_nil '|' (pyStripPipes line)

/-- The cell list of a parsed row in the file-search adapter is never the
empty list. -/
theorem assistant_stripSplitTrim_ne_nil (line : String) :
    (OpenAIAssistantPDFParser.stripSplitTrim line).isEmpty = false := by
  rw [List.isEmpty_eq_false]
  simpa [OpenAIAssistantPDFParser.stripSplitTrim] using
    pySplit_ne_nil '|' (pyStripPipes line)

/-- A `filterMap` whose function keeps `f a` exactly when the guard of the
OpenAI adapters' row loop passes is the filtered map, provided `f` never
yields the empty cell list. -/
theorem filterMap_guard_eq {α : Type} (f : α → List String) (p : String → Bool)
    (hne : ∀ a, (f a).isEmpty = false) (l : List α) :
    (l.filterMap fun a => if !(f a).isEmpty && (f a).any p then some (f a) else none) =
    (l.map f).filter (fun cells => cells.any p) := by
  induction l with
  | nil => rfl
  | cons a t ih =>
    rw [List.filterMap_cons, List.map_cons, List.filter_cons]
    cases h : (f a).any p
    · rw [if_neg (by rw [hne a]; decide)]
      rw [ih]
      simp [h]
    · rw [if_pos (by rw [hne a]; decide)]
      rw [ih]
      simp [h]

/-- The row loop of the vision adapter keeps exactly the parsed rows with at
least one non-empty cell. -/
theorem vision_rows_eq (ls : List String) :
    (ls.filterMap fun ln =>
      if !(OpenAIVisionPDFParser.stripSplitTrim ln).isEmpty &&
          (OpenAIVisionPDFParser.stripSplitTrim ln).any (fun c => c != "")
      then some (OpenAIVisionPDFParser.stripSplitTrim ln) else none) =
    (ls.map OpenAIVisionPDFParser.stripSplitTrim).filter
      (fun cells => cells.any (fun c => c != "")) :=
  filterMap_guard_eq OpenAIVisionPDFParser.stripSplitTrim (fun c => c != "")
    (fun ln => vision_stripSplitTrim_ne_nil ln) ls

/-- The row loop of the file-search adapter keeps exactly the parsed rows
with at least one non-empty cell. -/
theorem assistant_rows_eq (ls : List String) :
    (ls.filterMap fun ln =>
      if !(OpenAIAssistantPDFParser.stripSplitTrim ln).isEmpty &&
          (OpenAIAssistantPDFParser.stripSplitTrim ln).any (fun c => c != "")
      then some (OpenAIAssistantPDFParser.stripSplitTrim ln) else none) =
    (ls.map OpenAIAssistantPDFParser.stripSplitTrim).filter
      (fun cells => cells.any (fun c => c != "")) :=
  filterMap_guard_eq OpenAIAssistantPDFParser.stripSplitTrim (fun c => c != "")
    (fun ln => assistant_stripSplitTrim_ne_nil ln) ls

/-- Folding `max` over a non-empty list of copies of one value, from a start
below it, gives that value. -/
theorem foldl_max_all_eq (c : Nat) :
    ∀ (L : List Nat), (∀ x ∈ L, x = c) → ∀ a : Nat, a ≤ c → L ≠ [] →
      L.foldl max a = c := by
  intro L
  induction L with
  | nil => intro _ a _ hne; cases hne rfl
  | cons x xs ih =>
    intro hL a ha _
    rw [List.foldl_cons]
    have hx : x = c := hL x (List.mem_cons_self x xs)
    subst hx
    by_cases hxs : xs = []
    · subst hxs
      simp [Nat.max_eq_right ha]
    · exact ih (fun z hz => hL z (List.mem_cons_of_mem _ hz)) (max a x)
        (Nat.max_le.mpr ⟨ha, Nat.le_refl x⟩) hxs

/-- The modelled `pandas.DataFrame` constructor succeeds on rectangular
input: when every row has exactly as many cells as there are columns, no
`ValueError` is raised and the dataframe holds the rows as given. -/
theorem mkDataFrame_ok (data : List (List String)) (columns : List String)
    (h : ∀ row ∈ data, row.length = columns.length) :
    mkDataFrame data columns = Except.ok { columns := columns, data := data } := by
  cases data with
  | nil => rfl
  | cons r rs =>
    have hw : (((r :: rs).map List.length).foldl max 0) = columns.length := by
      apply foldl_max_all_eq columns.length
      · intro x hx
        rcases List.mem_map.mp hx with ⟨row, hrow, rfl⟩
        exact h row hrow
      · exact Nat.zero_le _
      · simp
    rw [mkDataFrame, if_neg (by simp), if_pos hw]

/-- The Anthropic validator fails whenever some requested modality is outside
the valid set. -/
theorem anthropic_validate_error (modalities : List String) (m : String)
    (hm : m ∈ modalities) (hv : AnthropicPDFParser.valid_modalities.contains m = false) :
    ∃ e, AnthropicPDFParser.validate_modalities modalities = Except.error e := by
  induction modalities with
  | nil => cases hm
  | cons a rest ih =>
    rw [AnthropicPDFParser.validate_modalities]
    by_cases ha : AnthropicPDFParser.valid_modalities.contains a = true
    · rw [if_pos ha]
      rcases List.mem_cons.mp hm with rfl | hm2
      · rw [hv] at ha; cases ha
      · exact ih hm2
    · rw [if_neg ha]
      exact ⟨_, rfl⟩

/-- The PyMuPDF validator fails whenever some requested modality is outside
the valid set. -/
theorem pymupdf_validate_error (modalities : List String) (m : String)
    (hm : m ∈ modalities) (hv : PyMuPDFParser.valid_modalities.contains m = false) :
    ∃ e, PyMuPDFParser.validate_modalities modalities = Except.error e := by
  induction modalities with
  | nil => cases hm
  | cons a rest ih =>
    rw [PyMuPDFParser.validate_modalities]
    by_cases ha : PyMuPDFParser.valid_modalities.contains a = true
    · rw [if_pos ha]
      rcases List.mem_cons.mp hm with rfl | hm2
      · rw [hv] at ha; cases ha
      · exact ih hm2
    · rw [if_neg ha]
      exact ⟨_, rfl⟩

/-- The docling validator fails whenever some requested modality is outside
the valid set. -/
theorem docling_validate_error (modalities : List String) (m : String)
    (hm : m ∈ modalities) (hv : DoclingPDFParser.valid_modalities.contains m = false) :
    ∃ e, DoclingPDFParser.validate_modalities modalities = Except.error e := by
  induction modalities with
  | nil => cases hm
  | cons a rest ih =>
    rw [DoclingPDFParser.validate_modalities]
    by_cases ha : DoclingPDFParser.valid_modalities.contains a = true
    · rw [if_pos ha]
      rcases List.mem_cons.mp hm with rfl | hm2
      · rw [hv] at ha; cases ha
      · exact ih hm2
    · rw [if_neg ha]
      exact ⟨_, rfl⟩

/-- The Llama validator fails whenever some requested modality is outside the
valid set. -/
theorem llama_validate_error (modalities : List String) (m : String)
    (hm : m ∈ modalities) (hv : LlamaPDFParser.valid_modalities.contains m = false) :
    ∃ e, LlamaPDFParser.validate_modalities modalities = Except.error e := by
  induction modalities with
  | nil => cases hm
  | cons a rest ih =>
    rw [LlamaPDFParser.validate_modalities]
    by_cases ha : LlamaPDFParser.valid_modalities.contains a = true
    · rw [if_pos ha]
      rcases List.mem_cons.mp hm with rfl | hm2
      · rw [hv] at ha; cases ha
      · exact ih hm2
    · rw [if_neg ha]
      exact ⟨_, rfl⟩

/-- The vision validator fails whenever some requested modality is outside
the valid set. -/
theorem vision_validate_error (modalities : List String) (m : String)
    (hm : m ∈ modalities) (hv : OpenAIVisionPDFParser.valid_modalities.contains m = false) :
    ∃ e, OpenAIVisionPDFParser.validate_modalities modalities = Except.error e := by
  have hmem : m ∈ modalities.filter
      (fun x => !OpenAIVisionPDFParser.valid_modalities.contains x) :=
    List.mem_filter.mpr ⟨hm, by rw [hv]; rfl⟩
  rw [OpenAIVisionPDFParser.validate_modalities]
  cases hfil : modalities.filter
      (fun x => !OpenAIVisionPDFParser.valid_modalities.contains x) with
  | nil => rw [hfil] at hmem; cases hmem
  | cons a t =>
    exact ⟨"Invalid modalities: " ++ pyListRepr (a :: t) ++ ". Valid: "
      ++ pyListRepr ["images", "tables", "text"], by rw [if_neg (by simp)]⟩

/-- The file-search validator fails whenever some requested modality is
outside the valid set. -/
theorem assistant_validate_error (modalities : List String) (m : String)
    (hm : m ∈ modalities)
    (hv : OpenAIAssistantPDFParser.valid_modalities.contains m = false) :
    ∃ e, OpenAIAssistantPDFParser.validate_modalities modalities = Except.error e := by
  have hmem : m ∈ modalities.filter
      (fun x => !OpenAIAssistantPDFParser.valid_modalities.contains x) :=
    List.mem_filter.mpr ⟨hm, by rw [hv]; rfl⟩
  rw [OpenAIAssistantPDFParser.validate_modalities]
  cases hfil : modalities.filter
      (fun x => !OpenAIAssistantPDFParser.valid_modalities.contains x) with
  | nil => rw [hfil] at hmem; cases hmem
  | cons a t =>
    exact ⟨"Invalid modalities: " ++ pyListRepr (a :: t) ++ ". Valid: "
      ++ pyListRepr ["images", "tables", "text"], by rw [if_neg (by simp)]⟩

/-- In a list made of a prefix, a middle element and a suffix, lookup at the
prefix length finds the middle element. -/
theorem get_append_cons {α : Type} (l1 : List α) (y : α) (l2 : List α) :
    (l1 ++ y :: l2).get? l1.length = some y := by
  induction l1 with
  | nil => rfl
  | cons a t ih => simpa using ih

/-- Exporting the empty Anthropic raw result gives the empty output, for any
requested modalities. -/
theorem anthropic_export_empty (modalities : List String) :
    AnthropicPDFParser.export_result { text_content := "", tables := [] } modalities =
      { text := { text := "" }, tables := [], images := [] } := by
  rw [AnthropicPDFParser.export_result]
  by_cases h1 : modalities.contains "text" = true <;>
    by_cases h2 : modalities.contains "tables" = true <;>
      simp [h1, h2, AnthropicPDFParser.extract_tables]

/-- Exporting the empty vision raw result gives the empty output, for any
requested modalities. -/
theorem vision_export_empty (modalities : List String) :
    OpenAIVisionPDFParser.export_result { text_content := "", tables := [] } modalities =
      { text := { text := "" }, tables := [], images := [] } := by
  rw [OpenAIVisionPDFParser.export_result]
  by_cases h1 : modalities.contains "text" = true <;>
    by_cases h2 : modalities.contains "tables" = true <;>
      simp [h1, h2, OpenAIVisionPDFParser.extract_tables]

/-- Exporting the empty file-search raw result gives the empty output, for
any requested modalities. -/
theorem assistant_export_empty (modalities : List String) :
    OpenAIAssistantPDFParser.export_result { text_content := "", tables := [] }
        modalities =
      { text := { text := "" }, tables := [], images := [] } := by
  rw [OpenAIAssistantPDFParser.export_result]
  by_cases h1 : modalities.contains "text" = true <;>
    by_cases h2 : modalities.contains "tables" = true <;>
      simp [h1, h2, OpenAIAssistantPDFParser.extract_tables]

/-- A docling batch containing a failed conversion makes the document loop
raise. -/
theorem docling_run_error (docs : List (Except String DoclingPDFParser.DoclingDocument))
    (modalities : List String) (h : ∃ e, Except.error e ∈ docs) :
    ∃ msg, (DoclingPDFParser.run_documents docs modalities).1 = Except.error msg := by
  induction docs with
  | nil => obtain ⟨e, he⟩ := h; cases he
  | cons d rest ih =>
    cases d with
    | error e => exact ⟨_, rfl⟩
    | ok document =>
      obtain ⟨e, he⟩ := h
      rcases List.mem_cons.mp he with h1 | h2
      · cases h1
      · obtain ⟨msg, hmsg⟩ := ih ⟨e, h2⟩
        rw [DoclingPDFParser.run_documents]
        rcases hrun : DoclingPDFParser.run_documents rest modalities with ⟨fst, snd⟩
        rw [hrun] at hmsg
        simp only at hmsg
        rw [hmsg]
        exact ⟨msg, rfl⟩

/-- A PyMuPDF batch containing a failed document open makes the document loop
raise. -/
theorem pymupdf_run_error (docs : List (Except String (List PyMuPDFParser.FitzPage)))
    (modalities : List String) (h : ∃ e, Except.error e ∈ docs) :
    ∃ msg, (PyMuPDFParser.run_documents docs modalities).1 = Except.error msg := by
  induction docs with
  | nil => obtain ⟨e, he⟩ := h; cases he
  | cons d rest ih =>
    cases d with
    | error e => exact ⟨_, rfl⟩
    | ok pages =>
      obtain ⟨e, he⟩ := h
      rcases List.mem_cons.mp he with h1 | h2
      · cases h1
      · obtain ⟨msg, hmsg⟩ := ih ⟨e, h2⟩
        rw [PyMuPDFParser.run_documents]
        rcases hrun : PyMuPDFParser.run_documents rest modalities with ⟨fst, snd⟩
        rw [hrun] at hmsg
        simp only at hmsg
        rw [hmsg]
        exact ⟨msg, rfl⟩

/-- Every raw result the Anthropic loader yields carries an empty tables
list. -/
theorem anthropic_load_tables_nil (docs : List (Except String String)) :
    ∀ r ∈ AnthropicPDFParser.load_documents docs, r.tables = [] := by
  intro r hr
  rcases List.mem_map.mp hr with ⟨d, _, rfl⟩
  cases d <;> rfl

/-- A fold whose step only appends to the text component leaves the table and
image components untouched and folds the text accumulator. -/
theorem foldl_text_only {σ : Type} (f : ParserOutput → σ → ParserOutput)
    (g : String → σ → String)
    (hf : ∀ o p, f o p =
      { text := { text := g o.text.text p }, tables := o.tables, images := o.images }) :
    ∀ (l : List σ) (t : String),
      l.foldl f { text := { text := t }, tables := [], images := [] } =
      { text := { text := l.foldl g t }, tables := [], images := [] } := by
  intro l
  induction l with
  | nil => intro t; rfl
  | cons p rest ih =>
    intro t
    rw [List.foldl_cons, List.foldl_cons, hf]
    exact ih (g t p)

/-- A fold whose step returns its accumulator unchanged is the identity. -/
theorem foldl_fixed {α β : Type} (f : β → α → β) (hf : ∀ b a, f b a = b)
    (l : List α) (b : β) : l.foldl f b = b := by
  induction l generalizing b with
  | nil => rfl
  | cons a t ih => rw [List.foldl_cons, hf]; exact ih b

/-! ## Claim theorems -/

/-- C1 (counterexample): the claim asserts that EVERY markdown-consuming
adapter rejects a table whose markdown has fewer than 2 non-blank lines and
excludes it from the output list.  The Anthropic adapter does not: its
`_extract_tables` has no minimum-line check, and on the one-line markdown
`"| H |"` it keeps the table as a header-only entry (output list of length 1,
with columns `["H"]` and no rows) instead of excluding it. -/
theorem C1_counterexample :
    (AnthropicPDFParser.extract_tables
      [{ markdown := "| H |", page_number := none, bbox := none }]).map
        (fun t => t.dataframe) = [some { columns := ["H"], data := [] }] := by
  decide

/-- C1 (amended): for every markdown table input whose text has fewer than 2
non-blank lines, the OpenAI vision and file-search adapters (the
markdown-consuming adapters other than the Anthropic one) exclude that table
from the output list and continue with the remaining tables of the same
document; the Anthropic adapter performs no minimum-line check and does not
always exclude such a table: on the one-line markdown `"| H |"` it keeps the
table (one output entry instead of zero). -/
theorem C1_amended_minline_reject (tbl : RawTable) (rest : List RawTable)
    (h : ((pySplitLines tbl.markdown).filter (fun ln => pyTrim ln != "")).length < 2) :
    OpenAIVisionPDFParser.extract_tables (tbl :: rest) =
      OpenAIVisionPDFParser.extract_tables rest ∧
    OpenAIAssistantPDFParser.extract_tables (tbl :: rest) =
      OpenAIAssistantPDFParser.extract_tables rest ∧
    (AnthropicPDFParser.extract_tables
      [{ markdown := "| H |", page_number := none, bbox := none }]).length = 1 := by
  refine ⟨?_, ?_, by decide⟩
  · simp only [OpenAIVisionPDFParser.extract_tables, List.filterMap_cons]
    rw [if_pos h]
  · simp only [OpenAIAssistantPDFParser.extract_tables, List.filterMap_cons]
    rw [if_pos h]

/-- C1 (witness): the one-line markdown `"| H |"` has fewer than 2 non-blank
lines and is excluded by both OpenAI adapters, while the Anthropic adapter
keeps it. -/
theorem C1_amended_minline_reject_witness :
    OpenAIVisionPDFParser.extract_tables
        [{ markdown := "| H |", page_number := none, bbox := none }] =
      OpenAIVisionPDFParser.extract_tables [] ∧
    OpenAIAssistantPDFParser.extract_tables
        [{ markdown := "| H |", page_number := none, bbox := none }] =
      OpenAIAssistantPDFParser.extract_tables [] ∧
    (AnthropicPDFParser.extract_tables
      [{ markdown := "| H |", page_number := none, bbox := none }]).length = 1 :=
  C1_amended_minline_reject
    { markdown := "| H |", page_number := none, bbox := none } [] (by decide)

/-- C2: the markdown `"| H1 | H2 |\n|----|----|\n| a | b |\n| c | d |"`
normalizes, in both OpenAI adapters, to a single table whose column names are
exactly `["H1", "H2"]` and whose data rows are exactly
`[["a", "b"], ["c", "d"]]` (line 1 skipped as the separator row; provenance
defaults applied since the raw table carries none). -/
theorem C2_scenario1_normalization :
    OpenAIVisionPDFParser.extract_tables
      [{ markdown := "| H1 | H2 |\n|----|----|\n| a | b |\n| c | d |",
         page_number := none, bbox := none }] =
      [{ markdown := "| H1 | H2 |\n|----|----|\n| a | b |\n| c | d |",
         dataframe := some { columns := ["H1", "H2"],
                             data := [["a", "b"], ["c", "d"]] },
         metadata := { page_number := 1, bbox := [0, 0, 0, 0] } }] ∧
    OpenAIAssistantPDFParser.extract_tables
      [{ markdown := "| H1 | H2 |\n|----|----|\n| a | b |\n| c | d |",
         page_number := none, bbox := none }] =
      [{ markdown := "| H1 | H2 |\n|----|----|\n| a | b |\n| c | d |",
         dataframe := some { columns := ["H1", "H2"],
                             data := [["a", "b"], ["c", "d"]] },
         metadata := { page_number := 1, bbox := [0, 0, 0, 0] } }] := by
  constructor <;> decide

/-- C4 (counterexample): the claim asserts that the keep-a-row-iff-it-has-a
non-empty-cell rule holds identically in every markdown-consuming adapter.
On the markdown `"| H |\n|---|\n|  |"`, whose single data line has only one
empty cell after trimming, the vision adapter drops the row but the Anthropic
adapter keeps it (as the all-empty row `[""]`): the rule is not shared. -/
theorem C4_counterexample :
    (AnthropicPDFParser.extract_tables
      [{ markdown := "| H |\n|---|\n|  |", page_number := none, bbox := none }]).map
        (fun t => t.dataframe) = [some { columns := ["H"], data := [[""]] }] ∧
    (OpenAIVisionPDFParser.extract_tables
      [{ markdown := "| H |\n|---|\n|  |", page_number := none, bbox := none }]).map
        (fun t => t.dataframe) = [some { columns := ["H"], data := [] }] := by
  constructor <;> decide

/-- C4 (amended): in the OpenAI vision and file-search adapters, for every
markdown table with at least 2 non-blank lines whose kept rows each have
exactly as many cells as the header (so that the `pandas.DataFrame`
construction succeeds rather than raising and skipping the table), each line
from line 2 onward is kept as a data row (its outer pipes stripped, split on
pipe, each cell trimmed) if and only if it contains at least one non-empty
cell; an all-empty row is dropped silently.  The Anthropic adapter keeps a
row whenever the slice `split("|")[1:-1]` is non-empty, also when all its
cells are empty. -/
theorem C4_amended_row_keep_rule (tbl : RawTable)
    (h : 2 ≤ ((pySplitLines tbl.markdown).filter (fun ln => pyTrim ln != "")).length)
    (hrectV : ∀ row ∈ ((((pySplitLines tbl.markdown).filter
          (fun ln => pyTrim ln != "")).drop 2).map
            OpenAIVisionPDFParser.stripSplitTrim).filter
          (fun cells => cells.any (fun c => c != "")),
      row.length = (OpenAIVisionPDFParser.stripSplitTrim
        (((pySplitLines tbl.markdown).filter
          (fun ln => pyTrim ln != "")).getD 0 "")).length)
    (hrectA : ∀ row ∈ ((((pySplitLines tbl.markdown).filter
          (fun ln => pyTrim ln != "")).drop 2).map
            OpenAIAssistantPDFParser.stripSplitTrim).filter
          (fun cells => cells.any (fun c => c != "")),
      row.length = (OpenAIAssistantPDFParser.stripSplitTrim
        (((pySplitLines tbl.markdown).filter
          (fun ln => pyTrim ln != "")).getD 0 "")).length) :
    OpenAIVisionPDFParser.extract_tables [tbl] =
      [{ markdown := tbl.markdown
         dataframe := some
           { columns := OpenAIVisionPDFParser.stripSplitTrim
               (((pySplitLines tbl.markdown).filter
                 (fun ln => pyTrim ln != "")).getD 0 "")
             data := ((((pySplitLines tbl.markdown).filter
                 (fun ln => pyTrim ln != "")).drop 2).map
                   OpenAIVisionPDFParser.stripSplitTrim).filter
                 (fun cells => cells.any (fun c => c != "")) }
         metadata := { page_number := tbl.page_number.getD 1
                       bbox := tbl.bbox.getD defaultBbox } }] ∧
    OpenAIAssistantPDFParser.extract_tables [tbl] =
      [{ markdown := tbl.markdown
         dataframe := some
           { columns := OpenAIAssistantPDFParser.stripSplitTrim
               (((pySplitLines tbl.markdown).filter
                 (fun ln => pyTrim ln != "")).getD 0 "")
             data := ((((pySplitLines tbl.markdown).filter
                 (fun ln => pyTrim ln != "")).drop 2).map
                   OpenAIAssistantPDFParser.stripSplitTrim).filter
                 (fun cells => cells.any (fun c => c != "")) }
         metadata := { page_number := tbl.page_number.getD 1
                       bbox := tbl.bbox.getD defaultBbox } }] := by
  constructor
  · simp only [OpenAIVisionPDFParser.extract_tables, List.filterMap_cons,
      List.filterMap_nil]
    rw [if_neg (by omega)]
    rw [vision_rows_eq]
    rw [mkDataFrame_ok _ _ hrectV]
  · simp only [OpenAIAssistantPDFParser.extract_tables, List.filterMap_cons,
      List.filterMap_nil]
    rw [if_neg (by omega)]
    rw [assistant_rows_eq]
    rw [mkDataFrame_ok _ _ hrectA]

/-- C4 (witness): the row-keep rule instantiated on the markdown
`"| H |\n|---|\n| x |\n|  |"`: the `x` row is kept, the all-empty row is
dropped. -/
theorem C4_amended_row_keep_rule_witness :
    OpenAIVisionPDFParser.extract_tables
        [{ markdown := "| H |\n|---|\n| x |\n|  |",
           page_number := none, bbox := none }] =
      [{ markdown := "| H |\n|---|\n| x |\n|  |"
         dataframe := some { columns := ["H"], data := [["x"]] }
         metadata := { page_number := 1, bbox := [0, 0, 0, 0] } }] ∧
    OpenAIAssistantPDFParser.extract_tables
        [{ markdown := "| H |\n|---|\n| x |\n|  |",
           page_number := none, bbox := none }] =
      [{ markdown := "| H |\n|---|\n| x |\n|  |"
         dataframe := some { columns := ["H"], data := [["x"]] }
         metadata := { page_number := 1, bbox := [0, 0, 0, 0] } }] := by
  have h := C4_amended_row_keep_rule
    { markdown := "| H |\n|---|\n| x |\n|  |", page_number := none, bbox := none }
    (by decide) (by decide) (by decide)
  refine ⟨?_, ?_⟩
  · rw [h.1]; decide
  · rw [h.2]; decide

/-- A lookup in a mapped list at the prefix length finds the image of the
middle element. -/
theorem map_get_append {α β : Type} (f : α → β) (l1 : List α) (y : α) (l2 : List α) :
    ((l1 ++ y :: l2).map f).get? l1.length = some (f y) := by
  induction l1 with
  | nil => rfl
  | cons a t ih => simpa using ih

/-- C3: for every adapter, calling `parse` with a modalities list containing
a string outside `{"text", "tables", "images"}` fails with the adapter's
invalid-modality `ValueError` before any backend call is performed (the
instrumented call counter stays at zero), and no `ParserOutput` is
produced. -/
theorem C3_invalid_modality_rejected_before_io
    (modalities : List String) (m : String)
    (docsA : List (Except String String))
    (docsV : List (Except String (List (Except String RawResult))))
    (docsF : List (Except String RawResult))
    (docsP : List (Except String (List PyMuPDFParser.FitzPage)))
    (docsD : List (Except String DoclingPDFParser.DoclingDocument))
    (batchL : Except String (List LlamaPDFParser.LlamaJsonResult))
    (hm : m ∈ modalities)
    (hv : (["text", "tables", "images"] : List String).contains m = false) :
    ((∃ e, (AnthropicPDFParser.parse docsA modalities).1 = Except.error e) ∧
      (AnthropicPDFParser.parse docsA modalities).2 = 0) ∧
    ((∃ e, (OpenAIVisionPDFParser.parse docsV modalities).1 = Except.error e) ∧
      (OpenAIVisionPDFParser.parse docsV modalities).2 = 0) ∧
    ((∃ e, (OpenAIAssistantPDFParser.parse docsF modalities).1 = Except.error e) ∧
      (OpenAIAssistantPDFParser.parse docsF modalities).2 = 0) ∧
    ((∃ e, (PyMuPDFParser.parse docsP modalities).1 = Except.error e) ∧
      (PyMuPDFParser.parse docsP modalities).2 = 0) ∧
    ((∃ e, (DoclingPDFParser.parse docsD modalities).1 = Except.error e) ∧
      (DoclingPDFParser.parse docsD modalities).2 = 0) ∧
    ((∃ e, (LlamaPDFParser.parse batchL modalities).1 = Except.error e) ∧
      (LlamaPDFParser.parse batchL modalities).2 = 0) := by
  obtain ⟨eA, hA⟩ := anthropic_validate_error modalities m hm hv
  obtain ⟨eV, hV⟩ := vision_validate_error modalities m hm hv
  obtain ⟨eF, hF⟩ := assistant_validate_error modalities m hm hv
  obtain ⟨eP, hP⟩ := pymupdf_validate_error modalities m hm hv
  obtain ⟨eD, hD⟩ := docling_validate_error modalities m hm hv
  obtain ⟨eL, hL⟩ := llama_validate_error modalities m hm hv
  refine ⟨⟨⟨eA, ?_⟩, ?_⟩, ⟨⟨eV, ?_⟩, ?_⟩, ⟨⟨eF, ?_⟩, ?_⟩, ⟨⟨eP, ?_⟩, ?_⟩,
    ⟨⟨eD, ?_⟩, ?_⟩, ⟨⟨eL, ?_⟩, ?_⟩⟩ <;>
    simp [AnthropicPDFParser.parse, OpenAIVisionPDFParser.parse,
      OpenAIAssistantPDFParser.parse, PyMuPDFParser.parse, DoclingPDFParser.parse,
      LlamaPDFParser.parse, hA, hV, hF, hP, hD, hL]

/-- C3 (witness): requesting the modality `"metadata"` (outside the valid
set) against every adapter with empty batches fails with zero backend
calls. -/
theorem C3_invalid_modality_rejected_before_io_witness :
    ((∃ e, (AnthropicPDFParser.parse [] ["metadata"]).1 = Except.error e) ∧
      (AnthropicPDFParser.parse [] ["metadata"]).2 = 0) ∧
    ((∃ e, (OpenAIVisionPDFParser.parse [] ["metadata"]).1 = Except.error e) ∧
      (OpenAIVisionPDFParser.parse [] ["metadata"]).2 = 0) ∧
    ((∃ e, (OpenAIAssistantPDFParser.parse [] ["metadata"]).1 = Except.error e) ∧
      (OpenAIAssistantPDFParser.parse [] ["metadata"]).2 = 0) ∧
    ((∃ e, (PyMuPDFParser.parse [] ["metadata"]).1 = Except.error e) ∧
      (PyMuPDFParser.parse [] ["metadata"]).2 = 0) ∧
    ((∃ e, (DoclingPDFParser.parse [] ["metadata"]).1 = Except.error e) ∧
      (DoclingPDFParser.parse [] ["metadata"]).2 = 0) ∧
    ((∃ e, (LlamaPDFParser.parse (Except.ok []) ["metadata"]).1 = Except.error e) ∧
      (LlamaPDFParser.parse (Except.ok []) ["metadata"]).2 = 0) :=
  C3_invalid_modality_rejected_before_io ["metadata"] "metadata" [] [] [] [] []
    (Except.ok []) (by decide) (by decide)

/-- C5 (counterexample): the claim allows only the docling adapter to raise
on a per-document failure; every other adapter is claimed to substitute an
empty `ParserOutput` and continue.  In the PyMuPDF adapter a failing
`fitz.open` on the second document of a batch propagates out of `parse`: the
call returns no output list at all (in particular no empty output for the
failing document, and the first document's work is discarded). -/
theorem C5_counterexample :
    (PyMuPDFParser.parse [Except.ok [], Except.error "fitz open failed"] ["text"]).1 =
      Except.error "fitz open failed" := by
  decide

/-- C5 (amended): a per-document extraction failure yields an empty
`ParserOutput` (empty text, zero tables, zero images) while the remaining
documents of the batch are still processed in the three LLM-based adapters
(Anthropic, OpenAI vision, OpenAI file-search); the docling adapter raises
`ValueError` on a document-level conversion failure, aborting the call; and
the PyMuPDF and Llama adapters also abort, because their document loading has
no per-document exception handler and the engine's exception propagates. -/
theorem C5_amended_per_document_failures :
    (∀ (pre post : List (Except String String)) (e : String)
        (modalities : List String) (outs : List ParserOutput),
      (AnthropicPDFParser.parse (pre ++ Except.error e :: post) modalities).1 =
          Except.ok outs →
        outs.length = pre.length + 1 + post.length ∧
        outs.get? pre.length =
          some { text := { text := "" }, tables := [], images := [] }) ∧
    (∀ (pre post : List (Except String (List (Except String RawResult)))) (e : String)
        (modalities : List String) (outs : List ParserOutput),
      (OpenAIVisionPDFParser.parse (pre ++ Except.error e :: post) modalities).1 =
          Except.ok outs →
        outs.length = pre.length + 1 + post.length ∧
        outs.get? pre.length =
          some { text := { text := "" }, tables := [], images := [] }) ∧
    (∀ (pre post : List (Except String RawResult)) (e : String)
        (modalities : List String) (outs : List ParserOutput),
      (OpenAIAssistantPDFParser.parse (pre ++ Except.error e :: post) modalities).1 =
          Except.ok outs →
        outs.length = pre.length + 1 + post.length ∧
        outs.get? pre.length =
          some { text := { text := "" }, tables := [], images := [] }) ∧
    (∀ (docs : List (Except String DoclingPDFParser.DoclingDocument))
        (modalities : List String),
      (∃ e, Except.error e ∈ docs) →
      DoclingPDFParser.validate_modalities modalities = Except.ok () →
      ∃ msg, (DoclingPDFParser.parse docs modalities).1 = Except.error msg) ∧
    (∀ (docs : List (Except String (List PyMuPDFParser.FitzPage)))
        (modalities : List String),
      (∃ e, Except.error e ∈ docs) →
      PyMuPDFParser.validate_modalities modalities = Except.ok () →
      ∃ msg, (PyMuPDFParser.parse docs modalities).1 = Except.error msg) ∧
    (∀ (e : String) (modalities : List String),
      LlamaPDFParser.validate_modalities modalities = Except.ok () →
      (LlamaPDFParser.parse (Except.error e) modalities).1 = Except.error e) := by
  refine ⟨?_, ?_, ?_, ?_, ?_, ?_⟩
  · intro pre post e modalities outs h
    cases hv : AnthropicPDFParser.validate_modalities modalities with
    | error err => simp [AnthropicPDFParser.parse, hv] at h
    | ok u =>
      cases u
      simp only [AnthropicPDFParser.parse, hv] at h
      rw [Except.ok.injEq] at h
      subst h
      rw [AnthropicPDFParser.load_documents, List.map_map]
      constructor
      · simp
        omega
      · rw [map_get_append]
        simp [Function.comp, anthropic_export_empty]
  · intro pre post e modalities outs h
    cases hv : OpenAIVisionPDFParser.validate_modalities modalities with
    | error err => simp [OpenAIVisionPDFParser.parse, hv] at h
    | ok u =>
      cases u
      simp only [OpenAIVisionPDFParser.parse, hv] at h
      rw [Except.ok.injEq] at h
      subst h
      rw [OpenAIVisionPDFParser.load_documents, List.map_map]
      constructor
      · simp
        omega
      · rw [map_get_append]
        simp [Function.comp, vision_export_empty]
  · intro pre post e modalities outs h
    cases hv : OpenAIAssistantPDFParser.validate_modalities modalities with
    | error err => simp [OpenAIAssistantPDFParser.parse, hv] at h
    | ok u =>
      cases u
      simp only [OpenAIAssistantPDFParser.parse, hv] at h
      rw [Except.ok.injEq] at h
      subst h
      rw [OpenAIAssistantPDFParser.load_documents, List.map_map]
      constructor
      · simp
        omega
      · rw [map_get_append]
        simp [Function.comp, assistant_export_empty]
  · intro docs modalities hdocs hval
    simp only [DoclingPDFParser.parse, hval]
    exact docling_run_error docs modalities hdocs
  · intro docs modalities hdocs hval
    simp only [PyMuPDFParser.parse, hval]
    exact pymupdf_run_error docs modalities hdocs
  · intro e modalities hval
    simp [LlamaPDFParser.parse, hval]

/-- C5 (witness): concrete two-document batches with one failure, for each of
the five conjuncts. -/
theorem C5_amended_per_document_failures_witness :
    ([AnthropicPDFParser.export_result { text_content := "good", tables := [] }
        ["text", "tables", "images"],
      { text := { text := "" }, tables := [], images := [] }].length = 1 + 1 + 0 ∧
      [AnthropicPDFParser.export_result { text_content := "good", tables := [] }
          ["text", "tables", "images"],
        { text := { text := "" }, tables := [], images := [] }].get? 1 =
        some { text := { text := "" }, tables := [], images := [] }) ∧
    ([({ text := { text := "" }, tables := [], images := [] } : ParserOutput)].length =
        0 + 1 + 0 ∧
      [({ text := { text := "" }, tables := [], images := [] } : ParserOutput)].get? 0 =
        some { text := { text := "" }, tables := [], images := [] }) ∧
    ([({ text := { text := "" }, tables := [], images := [] } : ParserOutput)].length =
        0 + 1 + 0 ∧
      [({ text := { text := "" }, tables := [], images := [] } : ParserOutput)].get? 0 =
        some { text := { text := "" }, tables := [], images := [] }) ∧
    (∃ msg, (DoclingPDFParser.parse [Except.error "conversion failed"] ["text"]).1 =
      Except.error msg) ∧
    (∃ msg, (PyMuPDFParser.parse [Except.error "open failed"] ["text"]).1 =
      Except.error msg) ∧
    (LlamaPDFParser.parse (Except.error "job failed") ["text"]).1 =
      Except.error "job failed" :=
  ⟨C5_amended_per_document_failures.1 [Except.ok "good"] [] "boom"
      ["text", "tables", "images"] _ (by decide),
   C5_amended_per_document_failures.2.1 [] [] "boom" ["text"] _ (by decide),
   C5_amended_per_document_failures.2.2.1 [] [] "boom" ["text"] _ (by decide),
   C5_amended_per_document_failures.2.2.2.1 [Except.error "conversion failed"] ["text"]
      ⟨"conversion failed", by decide⟩ (by decide),
   C5_amended_per_document_failures.2.2.2.2.1 [Except.error "open failed"] ["text"]
      ⟨"open failed", by decide⟩ (by decide),
   C5_amended_per_document_failures.2.2.2.2.2 "job failed" ["text"] (by decide)⟩

/-- When neither `"tables"` nor `"images"` is requested, the docling item
loop leaves its accumulator untouched. -/
theorem docling_items_fixed (modalities : List String)
    (htab : modalities.contains "tables" = false)
    (himg : modalities.contains "images" = false)
    (items : List DoclingPDFParser.DoclingItem)
    (acc : List TableElement × List ImageElement) :
    items.foldl
      (fun (acc : List TableElement × List ImageElement) item =>
        match item with
        | .tableItem t =>
          (if modalities.contains "tables" then acc.1 ++ DoclingPDFParser.extract_tables t
           else acc.1, acc.2)
        | .pictureItem p =>
          (acc.1, if modalities.contains "images"
                  then acc.2 ++ DoclingPDFParser.extract_images p else acc.2)
        | .otherItem => acc) acc = acc := by
  rw [htab, himg]
  induction items generalizing acc with
  | nil => rfl
  | cons item rest ih =>
    rw [List.foldl_cons]
    cases item <;> simp_all

/-- C6: for every adapter, exporting a raw result with modalities exactly
`["text"]` yields a `ParserOutput` whose text field holds the adapter's text
extraction and whose tables and images are both empty lists, regardless of
any table or image data present in the raw result. -/
theorem C6_text_only_modality :
    (∀ parsed : RawResult,
      AnthropicPDFParser.export_result parsed ["text"] =
        { text := { text := parsed.text_content }, tables := [], images := [] }) ∧
    (∀ parsed : RawResult,
      OpenAIVisionPDFParser.export_result parsed ["text"] =
        { text := { text := parsed.text_content }, tables := [], images := [] }) ∧
    (∀ parsed : RawResult,
      OpenAIAssistantPDFParser.export_result parsed ["text"] =
        { text := { text := parsed.text_content }, tables := [], images := [] }) ∧
    (∀ pages : List PyMuPDFParser.FitzPage,
      PyMuPDFParser.export_result pages ["text"] =
        { text := { text := pages.foldl (fun acc page => acc ++ page.get_text ++ "\n") "" }
          tables := [], images := [] }) ∧
    (∀ document : DoclingPDFParser.DoclingDocument,
      DoclingPDFParser.export_result document ["text"] =
        { text := DoclingPDFParser.extract_text document, tables := [], images := [] }) ∧
    (∀ json_result : LlamaPDFParser.LlamaJsonResult,
      LlamaPDFParser.export_result json_result ["text"] =
        { text :=
            { text := json_result.pages.foldl (fun acc page => acc ++ page.text ++ "\n") "" }
          tables := [], images := [] }) := by
  have ht : (["text"] : List String).contains "text" = true := by decide
  have htab : (["text"] : List String).contains "tables" = false := by decide
  have himg : (["text"] : List String).contains "images" = false := by decide
  refine ⟨?_, ?_, ?_, ?_, ?_, ?_⟩
  · intro parsed
    rw [AnthropicPDFParser.export_result]
    simp [ht, htab]
  · intro parsed
    rw [OpenAIVisionPDFParser.export_result]
    simp [ht, htab]
  · intro parsed
    rw [OpenAIAssistantPDFParser.export_result]
    simp [ht, htab]
  · intro pages
    rw [PyMuPDFParser.export_result]
    apply foldl_text_only
    intro o p
    simp [ht, htab, himg, PyMuPDFParser.extract_text]
  · intro document
    simp only [DoclingPDFParser.export_result]
    rw [docling_items_fixed ["text"] htab himg]
    rw [if_pos ht]
  · intro json_result
    rw [LlamaPDFParser.export_result]
    apply foldl_text_only
    intro o p
    simp [ht, htab, himg, LlamaPDFParser.extract_text]

/-- C7: for every table item whose raw dictionary supplies neither a page
number nor a bounding box, the `TableElement` produced by the markdown
normalization of each LLM-based adapter carries metadata with page number 1
and bounding box `[0, 0, 0, 0]`. -/
theorem C7_default_provenance (ts : List RawTable)
    (h : ∀ t ∈ ts, t.page_number = none ∧ t.bbox = none) :
    (∀ elem ∈ OpenAIVisionPDFParser.extract_tables ts,
      elem.metadata = { page_number := 1, bbox := [0, 0, 0, 0] }) ∧
    (∀ elem ∈ OpenAIAssistantPDFParser.extract_tables ts,
      elem.metadata = { page_number := 1, bbox := [0, 0, 0, 0] }) ∧
    (∀ elem ∈ AnthropicPDFParser.extract_tables ts,
      elem.metadata = { page_number := 1, bbox := [0, 0, 0, 0] }) := by
  refine ⟨?_, ?_, ?_⟩ <;> intro elem helem
  · rw [OpenAIVisionPDFParser.extract_tables] at helem
    obtain ⟨t, ht, hf⟩ := List.mem_filterMap.mp helem
    obtain ⟨h1, h2⟩ := h t ht
    dsimp only at hf
    split at hf
    · cases hf
    · split at hf
      · injection hf with hElem
        rw [← hElem, h1, h2]
        rfl
      · cases hf
  · rw [OpenAIAssistantPDFParser.extract_tables] at helem
    obtain ⟨t, ht, hf⟩ := List.mem_filterMap.mp helem
    obtain ⟨h1, h2⟩ := h t ht
    dsimp only at hf
    split at hf
    · cases hf
    · split at hf
      · injection hf with hElem
        rw [← hElem, h1, h2]
        rfl
      · cases hf
  · rw [AnthropicPDFParser.extract_tables] at helem
    obtain ⟨t, ht, hf⟩ := List.mem_filterMap.mp helem
    obtain ⟨h1, h2⟩ := h t ht
    dsimp only at hf
    split at hf
    · injection hf with hElem
      rw [← hElem, h1, h2]
      rfl
    · cases hf

/-- C7 (witness): a concrete table with no provenance gets page 1 and the
zero bounding box in all three adapters. -/
theorem C7_default_provenance_witness :
    (∀ elem ∈ OpenAIVisionPDFParser.extract_tables
        [{ markdown := "| H |\n|---|\n| x |", page_number := none, bbox := none }],
      elem.metadata = { page_number := 1, bbox := [0, 0, 0, 0] }) ∧
    (∀ elem ∈ OpenAIAssistantPDFParser.extract_tables
        [{ markdown := "| H |\n|---|\n| x |", page_number := none, bbox := none }],
      elem.metadata = { page_number := 1, bbox := [0, 0, 0, 0] }) ∧
    (∀ elem ∈ AnthropicPDFParser.extract_tables
        [{ markdown := "| H |\n|---|\n| x |", page_number := none, bbox := none }],
      elem.metadata = { page_number := 1, bbox := [0, 0, 0, 0] }) :=
  C7_default_provenance
    [{ markdown := "| H |\n|---|\n| x |", page_number := none, bbox := none }]
    (by decide)

/-- C8: configuration errors are raised synchronously and surfaced to the
caller, before any backend work: an absent or empty `ANTHROPIC_API_KEY`
fails Anthropic adapter construction with the typed credential error; a
failing external `LlamaParse` constructor surfaces as the adapter's
`ValueError` naming the failure; an unknown backend name fails dispatcher
construction; and an invalid modality name fails `parse` with zero backend
calls. -/
theorem C8_configuration_errors_fail_fast :
    (∀ k : Option String, (k = none ∨ k = some "") →
      AnthropicPDFParser.init k =
        Except.error "ANTHROPIC_API_KEY environment variable is required") ∧
    (∀ (ctor : Option String → Except String LlamaPDFParser.LlamaConverter)
        (key : Option String) (e : String), ctor key = Except.error e →
      LlamaPDFParser.init ctor key =
        Except.error
          ("An error occurred while initializing the LlamaParse converter: " ++ e)) ∧
    (∀ name : String, PDFParser.PARSER_MAP.lookup (pyLower name) = none →
      PDFParser.init name = Except.error (PDFParser.invalid_parser_message name)) ∧
    (∀ (modalities : List String) (m : String) (docs : List (Except String String)),
      m ∈ modalities → (["text", "tables", "images"] : List String).contains m = false →
      (∃ e, (AnthropicPDFParser.parse docs modalities).1 = Except.error e) ∧
      (AnthropicPDFParser.parse docs modalities).2 = 0) := by
  refine ⟨?_, ?_, ?_, ?_⟩
  · intro k hk
    rcases hk with rfl | rfl
    · rfl
    · rfl
  · intro ctor key e hctor
    rw [LlamaPDFParser.init, hctor]
  · intro name hname
    rw [PDFParser.init]
    rw [hname]
  · intro modalities m docs hm hv
    obtain ⟨e, he⟩ := anthropic_validate_error modalities m hm hv
    exact ⟨⟨e, by simp [AnthropicPDFParser.parse, he]⟩,
      by simp [AnthropicPDFParser.parse, he]⟩

/-- C8 (witness): the conjuncts instantiated at an unset credential, a
rejecting constructor, the backend name `"unstructured"` and the modality
`"metadata"`. -/
theorem C8_configuration_errors_fail_fast_witness :
    AnthropicPDFParser.init none =
      Except.error "ANTHROPIC_API_KEY environment variable is required" ∧
    LlamaPDFParser.init (fun _ => Except.error "The API key is required") none =
      Except.error ("An error occurred while initializing the LlamaParse converter: "
        ++ "The API key is required") ∧
    PDFParser.init "unstructured" =
      Except.error (PDFParser.invalid_parser_message "unstructured") ∧
    ((∃ e, (AnthropicPDFParser.parse [] ["metadata"]).1 = Except.error e) ∧
      (AnthropicPDFParser.parse [] ["metadata"]).2 = 0) :=
  ⟨C8_configuration_errors_fail_fast.1 none (Or.inl rfl),
   C8_configuration_errors_fail_fast.2.1 (fun _ => Except.error "The API key is required")
     none "The API key is required" rfl,
   C8_configuration_errors_fail_fast.2.2.1 "unstructured" (by decide),
   C8_configuration_errors_fail_fast.2.2.2 ["metadata"] "metadata" [] (by decide)
     (by decide)⟩

/-- C9: constructing the dispatcher with a backend name whose lower-casing is
outside `PARSER_MAP` fails with the `ValueError` that names the requested
backend and renders the full list of valid names
`["docling", "llama", "pymupdf", "anthropic", "openai"]`, and no adapter is
instantiated (the result is never `Except.ok`). -/
theorem C9_unknown_backend (name : String)
    (h : PDFParser.PARSER_MAP.lookup (pyLower name) = none) :
    PDFParser.init name = Except.error (PDFParser.invalid_parser_message name) ∧
    PDFParser.PARSER_MAP.map Prod.fst =
      ["docling", "llama", "pymupdf", "anthropic", "openai"] ∧
    ∀ tag, PDFParser.init name ≠ Except.ok tag := by
  refine ⟨?_, by decide, ?_⟩
  · rw [PDFParser.init, h]
  · intro tag hcontra
    rw [PDFParser.init, h] at hcontra
    cases hcontra

/-- C9 (witness): the backend name `"unstructured"` is rejected. -/
theorem C9_unknown_backend_witness :
    PDFParser.init "unstructured" =
      Except.error (PDFParser.invalid_parser_message "unstructured") ∧
    PDFParser.PARSER_MAP.map Prod.fst =
      ["docling", "llama", "pymupdf", "anthropic", "openai"] ∧
    ∀ tag, PDFParser.init "unstructured" ≠ Except.ok tag :=
  C9_unknown_backend "unstructured" (by decide)

/-- C10: every Anthropic raw result carries an empty tables list (tables are
never extracted from the response text), so every successful `parse` call,
whatever its requested modalities (in particular any list containing
`"tables"`), returns outputs whose tables lists are all empty. -/
theorem C10_anthropic_tables_always_empty
    (docs : List (Except String String)) (modalities : List String)
    (outs : List ParserOutput) (hmods : "tables" ∈ modalities)
    (h : (AnthropicPDFParser.parse docs modalities).1 = Except.ok outs) :
    ∀ o ∈ outs, o.tables = [] := by
  cases hv : AnthropicPDFParser.validate_modalities modalities with
  | error err => simp [AnthropicPDFParser.parse, hv] at h
  | ok u =>
    cases u
    simp only [AnthropicPDFParser.parse, hv] at h
    rw [Except.ok.injEq] at h
    subst h
    intro o ho
    rcases List.mem_map.mp ho with ⟨r, hr, rfl⟩
    have hnil := anthropic_load_tables_nil docs r hr
    rw [AnthropicPDFParser.export_result]
    by_cases hc : modalities.contains "tables" = true <;>
      simp [hc, hnil, AnthropicPDFParser.extract_tables]

/-- C10 (witness): a concrete successful parse with the `"tables"` modality
yields an output with an empty tables list. -/
theorem C10_anthropic_tables_always_empty_witness :
    (AnthropicPDFParser.export_result { text_content := "body", tables := [] }
      ["text", "tables"]).tables = [] :=
  C10_anthropic_tables_always_empty [Except.ok "body"] ["text", "tables"]
    [AnthropicPDFParser.export_result { text_content := "body", tables := [] }
      ["text", "tables"]]
    (by decide) (by decide)
    (AnthropicPDFParser.export_result { text_content := "body", tables := [] }
      ["text", "tables"])
    (by decide)
